import Mathlib

/-!
Shallow embedding of `src/main.py` of the cl650-random-failures repository:
the failure-trigger resolution engine (override matching, trigger-kind
probability distribution, trigger sampling, activation decision).

Modelling conventions:
* Python floats are modelled as exact rationals (`ℚ`); Python `int(x)`
  (truncation toward zero) is modelled by `pyInt`.
* Python exceptions are modelled by `PyErr` (the code raises `AssertionError`
  via `assert` statements and `ValueError` via `raise ValueError(...)`).
* Randomness: `random.random()`, `np.random.choice` and `random.randint` are
  modelled by an abstract `RandSource` of indexed draw streams; functions that
  consume draws thread explicit draw counters.
-/

/-- Python `int(x)` truncates toward zero. -/
def pyInt (q : ℚ) : ℤ := if 0 ≤ q then ⌊q⌋ else ⌈q⌉

/-- `MAX_OPERATING_CEILING_M = 12497` (src/main.py line 12). -/
def MAX_OPERATING_CEILING_M : ℤ := 12497

/-- The `FailureState` enum (src/main.py lines 15-34): 19 variants. -/
inductive FailureState where
  | NOT_FAILED
  | ACTIVE
  | IAS
  | TAS
  | GS
  | V1
  | VR
  | V2
  | VT
  | AMSL
  | AGL
  | WAYPOINT
  | EXACT_TIMEOUT
  | APPROX_TIMEOUT
  | LIFTOFF
  | GEAR_UP
  | GEAR_DOWN
  | GEAR_CYCLED
  | CTRL_F
deriving DecidableEq, BEq, Repr

namespace FailureState

/-- The integer code of each enum member (`IntEnum` values 0..18). -/
def val : FailureState → ℕ
  | NOT_FAILED => 0
  | ACTIVE => 1
  | IAS => 2
  | TAS => 3
  | GS => 4
  | V1 => 5
  | VR => 6
  | V2 => 7
  | VT => 8
  | AMSL => 9
  | AGL => 10
  | WAYPOINT => 11
  | EXACT_TIMEOUT => 12
  | APPROX_TIMEOUT => 13
  | LIFTOFF => 14
  | GEAR_UP => 15
  | GEAR_DOWN => 16
  | GEAR_CYCLED => 17
  | CTRL_F => 18

/-- `FailureState(code)` conversion; Python raises `ValueError` on an unknown
code, modelled here as `none` (all claims use valid codes). -/
def ofCode? : ℤ → Option FailureState
  | 0 => some NOT_FAILED
  | 1 => some ACTIVE
  | 2 => some IAS
  | 3 => some TAS
  | 4 => some GS
  | 5 => some V1
  | 6 => some VR
  | 7 => some V2
  | 8 => some VT
  | 9 => some AMSL
  | 10 => some AGL
  | 11 => some WAYPOINT
  | 12 => some EXACT_TIMEOUT
  | 13 => some APPROX_TIMEOUT
  | 14 => some LIFTOFF
  | 15 => some GEAR_UP
  | 16 => some GEAR_DOWN
  | 17 => some GEAR_CYCLED
  | 18 => some CTRL_F
  | _ => none

/-- `FailureState.triggerable_by_random_failure` (src/main.py lines 36-55):
the 16 kinds eligible for random selection, in source order. -/
def triggerable_by_random_failure : List FailureState :=
  [ACTIVE, IAS, TAS, GS, V1, VR, V2, VT, AMSL, AGL,
   EXACT_TIMEOUT, APPROX_TIMEOUT, LIFTOFF, GEAR_UP, GEAR_DOWN, GEAR_CYCLED]

end FailureState

/-- `FAILURE_STATE_DISPLAY_NAMES` (src/main.py lines 84-104), in dict
insertion order. -/
def FAILURE_STATE_DISPLAY_NAMES : List (String × FailureState) :=
  [("not-failed", .NOT_FAILED),
   ("active", .ACTIVE),
   ("ias", .IAS),
   ("tas", .TAS),
   ("gs", .GS),
   ("v1", .V1),
   ("vr", .VR),
   ("v2", .V2),
   ("vt", .VT),
   ("amsl", .AMSL),
   ("agl", .AGL),
   ("waypoint", .WAYPOINT),
   ("exact-timeout", .EXACT_TIMEOUT),
   ("approx-timeout", .APPROX_TIMEOUT),
   ("liftoff", .LIFTOFF),
   ("gear-up", .GEAR_UP),
   ("gear-down", .GEAR_DOWN),
   ("gear-cycled", .GEAR_CYCLED),
   ("ctrl-f", .CTRL_F)]

/-- `FailureOverrideEntry` (src/main.py lines 107-127). -/
structure FailureOverrideEntry where
  failure : String
  state : Option FailureState
  param : Option ℤ
  mtbf_hours : Option ℚ
  probability_multiplier : Option ℚ
deriving DecidableEq, Repr

/-- `StateProbabilityOverrideEntry` (src/main.py lines 139-148). -/
structure StateProbabilityOverrideEntry where
  state : FailureState
  multiplier : ℚ
deriving DecidableEq, Repr

/-- Python exceptions raised by the program: `assert` statements raise
`AssertionError`, `raise ValueError(...)` raises `ValueError`. -/
inductive PyErr where
  | assertionError (msg : String)
  | valueError (msg : String)
deriving DecidableEq, Repr

/-- A node of the nested `overrides` mapping from the YAML config: the four
recognized override keys (each optionally present) plus the remaining
(non-keyword) keys, which are path segments mapping to child nodes, in dict
insertion order.  `state` carries the raw integer enum code as in the YAML. -/
inductive OverrideNode where
  | mk (state : Option ℤ) (param : Option ℤ) (mtbf_hours : Option ℚ)
      (mult : Option ℚ) (children : List (String × OverrideNode))

/-- The `keywords` list of `_get_failure_override_entries` (src/main.py line 161). -/
def overrideKeywords : List String := ["state", "param", "mtbf_hours", "mult"]

/-- `keyword in override_config` for the four recognized keys. -/
def OverrideNode.hasKeyword : OverrideNode → String → Bool
  | .mk st _ _ _ _, "state" => st.isSome
  | .mk _ pa _ _ _, "param" => pa.isSome
  | .mk _ _ mt _ _, "mtbf_hours" => mt.isSome
  | .mk _ _ _ mu _, "mult" => mu.isSome
  | _, _ => false

/-- `FailureOverrideEntry(prepend_origin, **override_config)`
(src/main.py lines 114-127): builds one entry combining all keys present at
the node; `FailureState(state)` converts the raw code. -/
def OverrideNode.toEntry : OverrideNode → String → FailureOverrideEntry
  | .mk st pa mt mu _, failure =>
    { failure := failure
      state := st.bind FailureState.ofCode?
      param := pa
      mtbf_hours := mt
      probability_multiplier := mu }

/-- `_get_failure_override_entries` (src/main.py lines 157-170): the keyword
loop appends one entry per present keyword, then the non-keyword keys are
recursed into with the key appended to the origin path. -/
def _get_failure_override_entries (node : OverrideNode) (prepend_origin : String) :
    List FailureOverrideEntry :=
  (overrideKeywords.filter (node.hasKeyword ·)).map (fun _ => node.toEntry prepend_origin) ++
  match node with
  | .mk _ _ _ _ children =>
    children.attach.flatMap
      (fun c => _get_failure_override_entries c.1.2 (prepend_origin ++ "/" ++ c.1.1))
decreasing_by
  cases c with
  | mk val prop =>
    cases val with
    | mk key child =>
      simp only
      have := List.sizeOf_lt_of_mem prop
      simp at this ⊢
      omega

/-- `_get_state_probability_override_entries` (src/main.py lines 173-200):
per entry (in dict order), `assert multiplier >= 0` fires first
(`AssertionError`); then an unrecognized display name raises `ValueError`
with a message joining all valid names. -/
def _get_state_probability_override_entries :
    List (String × ℚ) → Except PyErr (List StateProbabilityOverrideEntry)
  | [] => .ok []
  | (state_name, multiplier) :: rest =>
    if multiplier < 0 then
      .error (.assertionError
        ("Invalid multiplier " ++ toString multiplier ++ " for override for state " ++ state_name))
    else
      match FAILURE_STATE_DISPLAY_NAMES.lookup state_name with
      | none =>
        .error (.valueError
          ("State " ++ state_name ++ " is not valid. Expected one of: " ++
            String.intercalate ", " (FAILURE_STATE_DISPLAY_NAMES.map Prod.fst)))
      | some state => do
        let entries ← _get_state_probability_override_entries rest
        .ok ({ state := state, multiplier := multiplier } :: entries)

/-- The input data of `Config.__init__` (the parsed YAML mapping), with
`overrides` and `state_probability_overrides` already defaulted to empty
as by `data.get(..., {})`. `xplane_directory`/`scenario_name` are I/O-only. -/
structure ConfigData where
  expected_failures : ℚ
  mtbf_hours : ℚ
  overrides : OverrideNode
  state_probability_overrides : List (String × ℚ)

/-- `Config` (src/main.py lines 203-229) after `__init__`. -/
structure Config where
  expected_failures : ℚ
  mtbf_hours : ℚ
  overrides : List FailureOverrideEntry
  state_probability_overrides : List StateProbabilityOverrideEntry

/-- `Config.__init__` (src/main.py lines 211-229): build both override lists;
`sorted(..., reverse=True)` is a stable descending sort, on
`FailureOverrideEntry.failure` resp. `StateProbabilityOverrideEntry.state.value`.
Errors from `_get_state_probability_override_entries` propagate. -/
def Config.init (data : ConfigData) : Except PyErr Config := do
  let spo ← _get_state_probability_override_entries data.state_probability_overrides
  .ok { expected_failures := data.expected_failures
        mtbf_hours := data.mtbf_hours
        overrides :=
          (_get_failure_override_entries data.overrides "").mergeSort
            (fun a b => b.failure ≤ a.failure)
        state_probability_overrides :=
          spo.mergeSort (fun a b => b.state.val ≤ a.state.val) }

/-- `FailureState.get_parameter_range_for_failure_state` (src/main.py
lines 57-81).  The Python `match` has no case for `NOT_FAILED`, `WAYPOINT`
and `CTRL_F`, so the function falls through and returns `None` for them.
`int(...)` on the MTBF-derived bounds is truncation (`pyInt`). -/
def FailureState.get_parameter_range_for_failure_state (config : Config) :
    FailureState → Option (ℤ × ℤ)
  | .ACTIVE => none
  | .IAS | .TAS => some (1, 330)
  | .GS => some (1, 520)
  | .V1 | .VR | .V2 | .VT => some (-30, 30)
  | .AMSL => some (-100, MAX_OPERATING_CEILING_M)
  | .AGL => some (10, 2500)
  | .EXACT_TIMEOUT | .APPROX_TIMEOUT =>
    some (pyInt (config.mtbf_hours / 3 * 60), pyInt (config.mtbf_hours * 3 * 60))
  | .LIFTOFF => some (1, 90)
  | .GEAR_UP | .GEAR_DOWN | .GEAR_CYCLED => none
  | .NOT_FAILED | .WAYPOINT | .CTRL_F => none

/-- Python `str.startswith`: `s` starts with the character sequence `p`. -/
def pyStartswith (s p : String) : Bool := p.data.isPrefixOf s.data

/-- The scan loop of `Config.get_override_for_failure` (src/main.py
lines 241-248): first entry that matches exactly (`override.failure ==
failure`) or is a string prefix of the failure path
(`failure.startswith(override.failure)`). -/
def findOverride (failure : String) : List FailureOverrideEntry → Option FailureOverrideEntry
  | [] => none
  | o :: rest =>
    if o.failure = failure then some o
    else if pyStartswith failure o.failure then some o
    else findOverride failure rest

/-- `Config.get_override_for_failure` (src/main.py lines 240-248). -/
def Config.get_override_for_failure (cfg : Config) (failure : String) :
    Option FailureOverrideEntry :=
  findOverride failure cfg.overrides

/-- `Config.get_state_probability_override` (src/main.py lines 250-256):
first entry of the (descending-sorted) list whose state matches. -/
def Config.get_state_probability_override (cfg : Config) (state : FailureState) :
    Option StateProbabilityOverrideEntry :=
  cfg.state_probability_overrides.find? (fun o => o.state == state)

/-- The `distribution` array of `get_failure_state_probability_distribution`
before normalization (src/main.py lines 260-264): `np.ones(16)` with the
entry of each overridden kind replaced by its multiplier. -/
def Config.kindWeights (cfg : Config) : List ℚ :=
  FailureState.triggerable_by_random_failure.map (fun state =>
    match cfg.get_state_probability_override state with
    | some override => override.multiplier
    | none => 1)

/-- `Config.get_failure_state_probability_distribution` (src/main.py
lines 258-265): the weight array divided elementwise by its sum.
numpy raises no exception on a zero sum (it emits NaNs with a warning);
in this exact-arithmetic model `x / 0 = 0`. -/
def Config.get_failure_state_probability_distribution (cfg : Config) : List ℚ :=
  cfg.kindWeights.map (· / cfg.kindWeights.sum)

/-- Abstract model of the random sources consumed by the program:
`uniform n` is the n-th `random.random()` draw (a real in `[0, 1)`),
`choice n p` is the n-th `np.random.choice(trigger_choices, 1, p=p)[0]` draw
(an element chosen from the 16 triggerable kinds with probability vector `p`),
`randint n a b` is the n-th `random.randint(a, b)` draw (an integer in
`[a, b]`, both ends inclusive).  Functions that consume draws thread explicit
draw counters, so a run is a pure function of the source. -/
structure RandSource where
  uniform : ℕ → ℚ
  choice : ℕ → List ℚ → FailureState
  randint : ℕ → ℤ → ℤ → ℤ

/-- The non-forced path of `get_random_trigger` (src/main.py lines 293-299):
draw a kind from the probability distribution, then, if the kind has a
parameter range, draw a parameter with `random.randint`.  Returns the
triple together with the updated draw counters. -/
def get_random_trigger_random_path (config : Config) (failure : String)
    (rng : RandSource) (cIdx rIdx : ℕ) :
    (String × FailureState × Option ℤ) × ℕ × ℕ :=
  let prob_dist := config.get_failure_state_probability_distribution
  let trigger := rng.choice cIdx prob_dist
  match FailureState.get_parameter_range_for_failure_state config trigger with
  | none => ((failure, trigger, none), cIdx + 1, rIdx)
  | some (a, b) => ((failure, trigger, some (rng.randint rIdx a b)), cIdx + 1, rIdx + 1)

/-- `get_random_trigger` (src/main.py lines 288-299): if an override is
present and carries a forced state, return it with the override's param,
consuming no draws; otherwise take the random path. -/
def get_random_trigger (config : Config) (failure : String)
    (override : Option FailureOverrideEntry) (rng : RandSource) (cIdx rIdx : ℕ) :
    (String × FailureState × Option ℤ) × ℕ × ℕ :=
  match override with
  | some ov =>
    match ov.state with
    | some st => ((failure, st, ov.param), cIdx, rIdx)
    | none => get_random_trigger_random_path config failure rng cIdx rIdx
  | none => get_random_trigger_random_path config failure rng cIdx rIdx

/-- The loop body of `get_failure_triggers` (src/main.py lines 305-315),
threading the uniform / choice / randint draw counters. -/
def get_failure_triggers_loop (config : Config) (failure_chance : ℚ) (rng : RandSource) :
    List String → ℕ → ℕ → ℕ → List (String × FailureState × Option ℤ)
  | [], _, _, _ => []
  | failure :: rest, uIdx, cIdx, rIdx =>
    let override := config.get_override_for_failure failure
    let mult : ℚ :=
      match override with
      | none => 1
      | some ov =>
        match ov.probability_multiplier with
        | none => 1
        | some m => m
    if rng.uniform uIdx < failure_chance * mult then
      let r := get_random_trigger config failure override rng cIdx rIdx
      r.1 :: get_failure_triggers_loop config failure_chance rng rest (uIdx + 1) r.2.1 r.2.2
    else
      get_failure_triggers_loop config failure_chance rng rest (uIdx + 1) cIdx rIdx

/-- `get_failure_triggers` (src/main.py lines 302-316):
`failure_chance = expected_failures / len(failure_list)`; a failure is kept
iff `random.random() < failure_chance * mult` with `mult` the override's
probability multiplier when present, else 1. -/
def get_failure_triggers (config : Config) (failure_list : List String) (rng : RandSource) :
    List (String × FailureState × Option ℤ) :=
  get_failure_triggers_loop config (config.expected_failures / failure_list.length) rng
    failure_list 0 0 0

/-- The failure lines written by `write_failures_to_scenario` (src/main.py
lines 337-344); the two timestamped header comment lines are I/O detail and
omitted. -/
def write_failures_to_scenario (failure_list : List (String × FailureState × Option ℤ)) :
    List String :=
  failure_list.flatMap (fun f =>
    ("libfail" ++ f.1 ++ "/state = " ++ toString f.2.1.val) ::
    (match f.2.2 with
     | none => []
     | some p => ["libfail" ++ f.1 ++ "/param = " ++ toString p]))

/-- `main` (src/main.py lines 362-371) after `load_config`/`load_failures`
(I/O collaborators): `assert len(failures) > 0` aborts with an
`AssertionError` on an empty catalog, before any trigger sampling and before
any file is written; otherwise the triggers are computed and, unless `--dry`,
the scenario artifact (its failure lines) is produced. -/
def runMain (config : Config) (failures : List String) (rng : RandSource) (dry : Bool) :
    Except PyErr (List (String × FailureState × Option ℤ) × Option (List String)) :=
  if failures.length > 0 then
    let triggers := get_failure_triggers config failures rng
    .ok (triggers, if dry then none else some (write_failures_to_scenario triggers))
  else
    .error (.assertionError "No failures could be loaded from the failures.conf.")

/-- The `mult` computed in the loop of `get_failure_triggers`
(src/main.py lines 309-313): the resolved override's probability
multiplier when present, else 1. -/
def effectiveMultiplier (cfg : Config) (failure : String) : ℚ :=
  match cfg.get_override_for_failure failure with
  | none => 1
  | some ov =>
    match ov.probability_multiplier with
    | none => 1
    | some m => m

/-- Whether a run ended in a `ValueError`. -/
def Except.errorIsValueError : Except PyErr α → Bool
  | .error (.valueError _) => true
  | _ => false

/-- Whether a run ended in an `AssertionError` (a Python `assert`). -/
def Except.errorIsAssertionError : Except PyErr α → Bool
  | .error (.assertionError _) => true
  | _ => false

/-! Concrete sample data used to instantiate the theorems below. -/

/-- A random source whose uniform draws are all `1/2`. -/
def rngHalf : RandSource :=
  { uniform := fun _ => 1/2, choice := fun _ _ => .AGL, randint := fun _ a _ => a }

/-- A random source whose uniform draws are all `0`. -/
def rngZero : RandSource :=
  { uniform := fun _ => 0, choice := fun _ _ => .IAS, randint := fun _ _ b => b }

/-- A minimal configuration with no overrides and `mtbf_hours = 30`. -/
def cfgSimple : Config :=
  { expected_failures := 2, mtbf_hours := 30, overrides := [],
    state_probability_overrides := [] }

/-- An override forcing state `ACTIVE` with parameter 5. -/
def ovForced : FailureOverrideEntry :=
  { failure := "/systems/eng/left", state := some .ACTIVE, param := some 5,
    mtbf_hours := none, probability_multiplier := none }

/-- An override carrying a `param` but no forced `state`. -/
def ovParamOnly : FailureOverrideEntry :=
  { failure := "/systems/eng/left", state := none, param := some 42,
    mtbf_hours := none, probability_multiplier := none }

/-- Config data whose nested `overrides` mapping carries a `mult` key at
`systems → eng → left`. -/
def engLeftData : ConfigData :=
  { expected_failures := 2, mtbf_hours := 30,
    overrides := .mk none none none none
      [("systems", .mk none none none none
        [("eng", .mk none none none none
          [("left", .mk none none none (some 2) [])])])],
    state_probability_overrides := [] }

/-- The single override entry produced from `engLeftData`. -/
def engLeftEntry : FailureOverrideEntry :=
  { failure := "/systems/eng/left", state := none, param := none, mtbf_hours := none,
    probability_multiplier := some 2 }

/-- The configuration built from `engLeftData`. -/
def engLeftConfig : Config :=
  { expected_failures := 2, mtbf_hours := 30, overrides := [engLeftEntry],
    state_probability_overrides := [] }

/-- An override node carrying two of the four recognized keys
(`state: 1` and `mult: 2`) and no children. -/
def dupKeyNode : OverrideNode := .mk (some 1) none none (some 2) []

/-- The entry combining both keys of `dupKeyNode` at path `/systems/eng/left`. -/
def dupKeyEntry : FailureOverrideEntry :=
  { failure := "/systems/eng/left", state := some .ACTIVE, param := none,
    mtbf_hours := none, probability_multiplier := some 2 }

/-- `state_probability_overrides` data mapping every one of the 16 eligible
kinds to multiplier 0 (listed in descending enum-value order). -/
def allZeroSpoData : List (String × ℚ) :=
  [("gear-cycled", 0), ("gear-down", 0), ("gear-up", 0), ("liftoff", 0),
   ("approx-timeout", 0), ("exact-timeout", 0), ("agl", 0), ("amsl", 0),
   ("vt", 0), ("v2", 0), ("vr", 0), ("v1", 0),
   ("gs", 0), ("tas", 0), ("ias", 0), ("active", 0)]

/-- Config data in which every eligible trigger kind's multiplier is zero. -/
def allZeroData : ConfigData :=
  { expected_failures := 2, mtbf_hours := 30,
    overrides := .mk none none none none [],
    state_probability_overrides := allZeroSpoData }

/-- The sorted `StateProbabilityOverrideEntry` list built from `allZeroSpoData`. -/
def allZeroSpoEntries : List StateProbabilityOverrideEntry :=
  [⟨.GEAR_CYCLED, 0⟩, ⟨.GEAR_DOWN, 0⟩, ⟨.GEAR_UP, 0⟩, ⟨.LIFTOFF, 0⟩,
   ⟨.APPROX_TIMEOUT, 0⟩, ⟨.EXACT_TIMEOUT, 0⟩, ⟨.AGL, 0⟩, ⟨.AMSL, 0⟩,
   ⟨.VT, 0⟩, ⟨.V2, 0⟩, ⟨.VR, 0⟩, ⟨.V1, 0⟩,
   ⟨.GS, 0⟩, ⟨.TAS, 0⟩, ⟨.IAS, 0⟩, ⟨.ACTIVE, 0⟩]

/-- The configuration built from `allZeroData`. -/
def cfgAllZero : Config :=
  { expected_failures := 2, mtbf_hours := 30, overrides := [],
    state_probability_overrides := allZeroSpoEntries }

/-! Helper lemmas. -/

/-- The scan loop of `get_override_for_failure` is a `find?` over the
combined match predicate (exact match or string prefix). -/
theorem findOverride_eq_find? (failure : String) (l : List FailureOverrideEntry) :
    findOverride failure l =
      l.find? (fun o => o.failure == failure || pyStartswith failure o.failure) := by
  induction l with
  | nil => rfl
  | cons o rest ih =>
    by_cases h1 : o.failure = failure
    · simp [findOverride, List.find?, h1]
    · have hb : (o.failure == failure) = false := by simp [h1]
      by_cases h2 : pyStartswith failure o.failure
      · simp [findOverride, List.find?, h1, h2, hb]
      · simp [findOverride, List.find?, h1, h2, hb, ih]

/-- The random path of `get_random_trigger` returns the queried failure path
as first component. -/
theorem get_random_trigger_random_path_fst (cfg : Config) (failure : String)
    (rng : RandSource) (cIdx rIdx : ℕ) :
    (get_random_trigger_random_path cfg failure rng cIdx rIdx).1.1 = failure := by
  unfold get_random_trigger_random_path
  cases h : FailureState.get_parameter_range_for_failure_state cfg
      (rng.choice cIdx cfg.get_failure_state_probability_distribution) with
  | none => simp [h]
  | some ab => cases ab with | mk a b => simp [h]

/-- Every result triple of `get_random_trigger` carries the queried failure
path as its first component. -/
theorem get_random_trigger_fst (cfg : Config) (failure : String)
    (ov : Option FailureOverrideEntry) (rng : RandSource) (cIdx rIdx : ℕ) :
    (get_random_trigger cfg failure ov rng cIdx rIdx).1.1 = failure := by
  rcases ov with _ | ⟨ov⟩
  · exact get_random_trigger_random_path_fst cfg failure rng cIdx rIdx
  · cases h : ov.state with
    | none =>
      simpa [get_random_trigger, h] using
        get_random_trigger_random_path_fst cfg failure rng cIdx rIdx
    | some st => simp [get_random_trigger, h]

/-- Dividing every element of a list by `S` divides the sum by `S`. -/
theorem list_sum_div (l : List ℚ) (S : ℚ) : (l.map (· / S)).sum = l.sum / S := by
  induction l with
  | nil => simp
  | cons a t ih => simp [ih, add_div]

/-- The failures kept by the trigger loop are exactly those whose uniform
draw is strictly below `chance` times the resolved multiplier. -/
theorem get_failure_triggers_loop_names (cfg : Config) (chance : ℚ) (rng : RandSource) :
    ∀ (l : List String) (uIdx cIdx rIdx : ℕ),
      (get_failure_triggers_loop cfg chance rng l uIdx cIdx rIdx).map (fun t => t.1) =
        (List.enumFrom uIdx l).filterMap (fun p =>
          if rng.uniform p.1 < chance * effectiveMultiplier cfg p.2 then some p.2 else none) := by
  intro l
  induction l with
  | nil => intro uIdx cIdx rIdx; rfl
  | cons f rest ih =>
    intro uIdx cIdx rIdx
    simp only [get_failure_triggers_loop, List.enumFrom, List.filterMap_cons, effectiveMultiplier]
    split
    · simp only [List.map_cons, get_random_trigger_fst, ih]; rfl
    · rw [ih]; rfl

/-- Every entry produced under origin `p` has a failure path at least as
long as `p` (children extend the origin by `/` and the key). -/
theorem entries_failure_length :
    ∀ (n : ℕ) (node : OverrideNode), sizeOf node ≤ n →
      ∀ (p : String) (e : FailureOverrideEntry),
        e ∈ _get_failure_override_entries node p → p.length ≤ e.failure.length := by
  intro n
  induction n using Nat.strong_induction_on with
  | _ n ih =>
    intro node hn p e he
    cases node with
    | mk st pa mt mu children =>
      simp only [_get_failure_override_entries] at he
      rcases List.mem_append.mp he with h | h
      · obtain ⟨kw, _, rfl⟩ := List.mem_map.mp h
        simp [OverrideNode.toEntry]
      · obtain ⟨c, hc, he2⟩ := List.mem_flatMap.mp h
        obtain ⟨⟨key, child⟩, hmem⟩ := c
        have h1 := List.sizeOf_lt_of_mem hmem
        have h2 : sizeOf child < n := by
          simp at h1 hn ⊢
          omega
        have h3 := ih (sizeOf child) h2 child le_rfl (p ++ "/" ++ key) e he2
        have h4 : (p ++ "/" ++ key).length = p.length + 1 + key.length := by
          simp [String.length_append]
          rfl
        omega

/-! The claims. -/

/-- C2: For every failure whose resolved override carries a forced trigger
kind, the sampled trigger is exactly that forced kind with the override's
forced parameter (which may be absent), and no randomness is consulted: the
result is the forced triple with the draw counters unchanged, and is
identical for every state of the random source. -/
theorem forced_kind_trigger_is_deterministic (config : Config) (failure : String)
    (ov : FailureOverrideEntry) (st : FailureState) (h : ov.state = some st)
    (rng rng' : RandSource) (cIdx rIdx : ℕ) :
    get_random_trigger config failure (some ov) rng cIdx rIdx =
      ((failure, st, ov.param), cIdx, rIdx) ∧
    get_random_trigger config failure (some ov) rng cIdx rIdx =
      get_random_trigger config failure (some ov) rng' cIdx rIdx := by
  constructor <;> simp [get_random_trigger, h]

/-- Witness for C2: an override forcing `ACTIVE` with parameter 5 yields
exactly that trigger, irrespective of the random source. -/
theorem forced_kind_trigger_is_deterministic_witness :
    ovForced.state = some .ACTIVE ∧
    (get_random_trigger cfgSimple "/systems/eng/left/rev/deploy" (some ovForced) rngHalf 0 0 =
      (("/systems/eng/left/rev/deploy", .ACTIVE, some 5), 0, 0) ∧
    get_random_trigger cfgSimple "/systems/eng/left/rev/deploy" (some ovForced) rngHalf 0 0 =
      get_random_trigger cfgSimple "/systems/eng/left/rev/deploy" (some ovForced) rngZero 0 0) :=
  ⟨rfl, forced_kind_trigger_is_deterministic cfgSimple "/systems/eng/left/rev/deploy"
    ovForced .ACTIVE rfl rngHalf rngZero 0 0⟩

/-- C10: For every failure whose resolved override carries a forced
parameter but no forced kind, the forced parameter is ignored entirely:
the sampling result equals the result for the same override without the
parameter, and equals the result with no override at all (the fully random
path). -/
theorem param_without_forced_state_is_ignored (config : Config) (failure : String)
    (ov : FailureOverrideEntry) (h : ov.state = none) (rng : RandSource) (cIdx rIdx : ℕ) :
    get_random_trigger config failure (some ov) rng cIdx rIdx =
      get_random_trigger config failure (some { ov with param := none }) rng cIdx rIdx ∧
    get_random_trigger config failure (some ov) rng cIdx rIdx =
      get_random_trigger config failure none rng cIdx rIdx := by
  constructor <;> simp [get_random_trigger, h]

/-- Witness for C10: an override with `param = 42` and no forced state
samples exactly as if it had no parameter (and as if absent). -/
theorem param_without_forced_state_is_ignored_witness :
    ovParamOnly.state = none ∧
    (get_random_trigger cfgSimple "/systems/eng/left/rev/deploy" (some ovParamOnly) rngHalf 0 0 =
      get_random_trigger cfgSimple "/systems/eng/left/rev/deploy"
        (some { ovParamOnly with param := none }) rngHalf 0 0 ∧
    get_random_trigger cfgSimple "/systems/eng/left/rev/deploy" (some ovParamOnly) rngHalf 0 0 =
      get_random_trigger cfgSimple "/systems/eng/left/rev/deploy" none rngHalf 0 0) :=
  ⟨rfl, param_without_forced_state_is_ignored cfgSimple "/systems/eng/left/rev/deploy"
    ovParamOnly rfl rngHalf 0 0⟩

/-- C6: For every positive `mtbf_hours`, the parameter range of
`EXACT_TIMEOUT` and `APPROX_TIMEOUT` is
`(⌊mtbf_hours / 3 × 60⌋, ⌊mtbf_hours × 3 × 60⌋)` minutes; in particular for
`mtbf_hours = 30` the range is `(600, 5400)`. -/
theorem timeout_parameter_range (config : Config) (h : 0 < config.mtbf_hours) :
    (FailureState.get_parameter_range_for_failure_state config .EXACT_TIMEOUT =
      some (⌊config.mtbf_hours / 3 * 60⌋, ⌊config.mtbf_hours * 3 * 60⌋) ∧
    FailureState.get_parameter_range_for_failure_state config .APPROX_TIMEOUT =
      some (⌊config.mtbf_hours / 3 * 60⌋, ⌊config.mtbf_hours * 3 * 60⌋)) ∧
    (config.mtbf_hours = 30 →
      FailureState.get_parameter_range_for_failure_state config .EXACT_TIMEOUT =
        some (600, 5400) ∧
      FailureState.get_parameter_range_for_failure_state config .APPROX_TIMEOUT =
        some (600, 5400)) := by
  have h1 : 0 ≤ config.mtbf_hours / 3 * 60 :=
    le_of_lt (mul_pos (div_pos h (by norm_num)) (by norm_num))
  have h2 : 0 ≤ config.mtbf_hours * 3 * 60 :=
    le_of_lt (mul_pos (mul_pos h (by norm_num)) (by norm_num))
  have hmain : ∀ fs, fs = FailureState.EXACT_TIMEOUT ∨ fs = FailureState.APPROX_TIMEOUT →
      FailureState.get_parameter_range_for_failure_state config fs =
        some (⌊config.mtbf_hours / 3 * 60⌋, ⌊config.mtbf_hours * 3 * 60⌋) := by
    rintro fs (rfl | rfl) <;>
      simp [FailureState.get_parameter_range_for_failure_state, pyInt, h1, h2]
  refine ⟨⟨hmain _ (Or.inl rfl), hmain _ (Or.inr rfl)⟩, fun h30 => ?_⟩
  have e1 : config.mtbf_hours / 3 * 60 = (600 : ℚ) := by rw [h30]; norm_num
  have e2 : config.mtbf_hours * 3 * 60 = (5400 : ℚ) := by rw [h30]; norm_num
  constructor <;> rw [hmain _ (by simp)] <;> rw [e1, e2] <;> norm_num

/-- Witness for C6: at `mtbf_hours = 30` both timeout kinds get the range
`(600, 5400)`. -/
theorem timeout_parameter_range_witness :
    (0 : ℚ) < cfgSimple.mtbf_hours ∧
    FailureState.get_parameter_range_for_failure_state cfgSimple .EXACT_TIMEOUT =
      some (600, 5400) ∧
    FailureState.get_parameter_range_for_failure_state cfgSimple .APPROX_TIMEOUT =
      some (600, 5400) :=
  ⟨by norm_num [cfgSimple],
   (timeout_parameter_range cfgSimple (by norm_num [cfgSimple])).2 rfl⟩

/-- C8: An empty failure catalog makes the run abort with the
empty-catalog error (the `assert len(failures) > 0` in `main`), before any
trigger sampling — the result is the same for every random source — and no
output artifact is produced (the run yields an error, not a scenario). -/
theorem empty_catalog_aborts (config : Config) (rng rng' : RandSource) (dry dry' : Bool) :
    runMain config [] rng dry =
      .error (.assertionError "No failures could be loaded from the failures.conf.") ∧
    runMain config [] rng dry = runMain config [] rng' dry' := by
  constructor <;> rfl

/-- C5: For every failure in the catalog, the effective activation
probability is `base_chance` times the override's probability multiplier
when present else 1, with `base_chance = expected_failures / |catalog|`;
the triggered failures (in catalog order) are exactly those whose uniform
draw in `[0, 1)` is strictly less than that effective probability. -/
theorem failure_trigger_activation_criterion (cfg : Config) (failures : List String)
    (rng : RandSource) :
    (get_failure_triggers cfg failures rng).map (fun t => t.1) =
      failures.enum.filterMap (fun p =>
        if rng.uniform p.1 <
            cfg.expected_failures / (failures.length : ℚ) * effectiveMultiplier cfg p.2
        then some p.2 else none) := by
  rw [get_failure_triggers, get_failure_triggers_loop_names]
  rfl

/-- C9: For every config whose state-probability multipliers are
non-negative and whose raw weight sum is positive, the kind probability
distribution has exactly 16 non-negative entries summing to 1, each entry
being `1.0 ×` the kind's multiplier (1.0 when no override) divided by the
weight sum. -/
theorem kind_distribution_is_probability_vector (cfg : Config)
    (hnn : ∀ e ∈ cfg.state_probability_overrides, 0 ≤ e.multiplier)
    (hpos : 0 < cfg.kindWeights.sum) :
    cfg.get_failure_state_probability_distribution.length = 16 ∧
    (∀ x ∈ cfg.get_failure_state_probability_distribution, 0 ≤ x) ∧
    cfg.get_failure_state_probability_distribution.sum = 1 ∧
    cfg.get_failure_state_probability_distribution =
      FailureState.triggerable_by_random_failure.map (fun st =>
        (1 * match cfg.get_state_probability_override st with
             | some o => o.multiplier
             | none => 1) / cfg.kindWeights.sum) := by
  have hw : ∀ w ∈ cfg.kindWeights, 0 ≤ w := by
    intro w hmem
    simp only [Config.kindWeights, List.mem_map] at hmem
    obtain ⟨st, _, rfl⟩ := hmem
    cases hfind : cfg.get_state_probability_override st with
    | none => simp [hfind]
    | some o =>
      have := hnn o (List.mem_of_find?_eq_some hfind)
      simp [hfind, this]
  refine ⟨?_, ?_, ?_, ?_⟩
  · simp [Config.get_failure_state_probability_distribution, Config.kindWeights,
      FailureState.triggerable_by_random_failure]
  · intro x hx
    simp only [Config.get_failure_state_probability_distribution, List.mem_map] at hx
    obtain ⟨w, hwmem, rfl⟩ := hx
    exact div_nonneg (hw w hwmem) (le_of_lt hpos)
  · rw [Config.get_failure_state_probability_distribution, list_sum_div,
      div_self (ne_of_gt hpos)]
  · simp [Config.get_failure_state_probability_distribution, Config.kindWeights,
      List.map_map, Function.comp, one_mul]

/-- Witness for C9: the configuration with no overrides satisfies both
hypotheses and its distribution sums to 1. -/
theorem kind_distribution_is_probability_vector_witness :
    (∀ e ∈ cfgSimple.state_probability_overrides, 0 ≤ e.multiplier) ∧
    (0 : ℚ) < cfgSimple.kindWeights.sum ∧
    cfgSimple.get_failure_state_probability_distribution.sum = 1 := by
  have h1 : ∀ e ∈ cfgSimple.state_probability_overrides, 0 ≤ e.multiplier := by
    simp [cfgSimple]
  have h2 : (0 : ℚ) < cfgSimple.kindWeights.sum := by
    norm_num [Config.kindWeights, cfgSimple, Config.get_state_probability_override,
      FailureState.triggerable_by_random_failure]
  exact ⟨h1, h2, (kind_distribution_is_probability_vector cfgSimple h1 h2).2.2.1⟩

/-- C4 (amended): For every node of the nested overrides mapping, the
entries produced for that node's own path are one entry per present
override key — `k` identical copies, each combining all keys present at
the node — not a single combined entry. -/
theorem override_entries_per_node (node : OverrideNode) (p : String) :
    (_get_failure_override_entries node p).filter (fun e => e.failure == p) =
      List.replicate (overrideKeywords.countP (node.hasKeyword ·)) (node.toEntry p) := by
  cases node with
  | mk st pa mt mu children =>
    simp only [_get_failure_override_entries]
    rw [List.filter_append]
    have hpart2 : (children.attach.flatMap
        (fun c => _get_failure_override_entries c.1.2 (p ++ "/" ++ c.1.1))).filter
          (fun e => e.failure == p) = [] := by
      rw [List.filter_eq_nil_iff]
      intro e he
      obtain ⟨c, hc, he2⟩ := List.mem_flatMap.mp he
      obtain ⟨⟨key, child⟩, hmem⟩ := c
      have h3 := entries_failure_length (sizeOf child) child le_rfl (p ++ "/" ++ key) e he2
      have h4 : (p ++ "/" ++ key).length = p.length + 1 + key.length := by
        simp [String.length_append]
        rfl
      simp only [beq_iff_eq]
      intro hEq
      have : e.failure.length = p.length := by rw [hEq]
      omega
    rw [hpart2, List.append_nil]
    rw [List.filter_map]
    rw [List.filter_eq_self.mpr]
    · rw [List.map_const']
      congr 1
      rw [List.countP_eq_length_filter]
    · intro a ha
      simp [OverrideNode.toEntry]

/-- Counterexample for C4 as stated: a node carrying the two keys
`state: 1` and `mult: 2` produces two (identical, combined) entries for its
path, not exactly one. -/
theorem two_override_keys_give_two_entries :
    _get_failure_override_entries dupKeyNode "/systems/eng/left" = [dupKeyEntry, dupKeyEntry] ∧
    (_get_failure_override_entries dupKeyNode "/systems/eng/left").length = 2 := by
  have h : _get_failure_override_entries dupKeyNode "/systems/eng/left" =
      [dupKeyEntry, dupKeyEntry] := by
    simp [dupKeyNode, _get_failure_override_entries, overrideKeywords,
      OverrideNode.hasKeyword, OverrideNode.toEntry, dupKeyEntry, FailureState.ofCode?]
  exact ⟨h, by rw [h]; rfl⟩

/-- C1: Override resolution scans the override list — which `Config.init`
sorts by failure-prefix string in descending lexicographic order — and
returns the first entry whose prefix matches exactly or is a string prefix
of the failure path (`none` when no entry matches); in particular a failure
`/systems/eng/left/rev/deploy` resolves to an override registered at
`/systems/eng/left` when that is the only (hence most specific) override. -/
theorem override_resolution_scans_sorted_list (data : ConfigData) (cfg : Config)
    (h : Config.init data = .ok cfg) :
    List.Pairwise (fun a b => b.failure ≤ a.failure) cfg.overrides ∧
    (∀ f, cfg.get_override_for_failure f =
      cfg.overrides.find? (fun o => o.failure == f || pyStartswith f o.failure)) ∧
    (∀ e : FailureOverrideEntry, cfg.overrides = [e] → e.failure = "/systems/eng/left" →
      cfg.get_override_for_failure "/systems/eng/left/rev/deploy" = some e) := by
  refine ⟨?_, fun f => findOverride_eq_find? f cfg.overrides, ?_⟩
  · cases hE : _get_state_probability_override_entries data.state_probability_overrides with
    | error e => simp [Config.init, hE, Bind.bind, Except.bind] at h
    | ok spo =>
      simp only [Config.init, hE, Bind.bind, Except.bind, Except.ok.injEq] at h
      subst h
      have hs := @List.sorted_mergeSort FailureOverrideEntry
        (fun a b => decide (b.failure ≤ a.failure))
        (fun a b c h1 h2 => by
          simp only [decide_eq_true_eq] at *
          exact le_trans h2 h1)
        (fun a b => by
          simp only [Bool.or_eq_true, decide_eq_true_eq]
          exact le_total b.failure a.failure)
        (_get_failure_override_entries data.overrides "")
      exact hs.imp (fun hab => by simpa using hab)
  · intro e h1 h2
    have hpre : pyStartswith "/systems/eng/left/rev/deploy" "/systems/eng/left" = true := by
      decide
    have hne : ¬(("/systems/eng/left" : String) = "/systems/eng/left/rev/deploy") := by
      decide
    simp [Config.get_override_for_failure, h1, findOverride, h2, hne, hpre]

/-- Witness for C1: the config built from a nested override at
`systems → eng → left` resolves `/systems/eng/left/rev/deploy` to that
override. -/
theorem override_resolution_scans_sorted_list_witness :
    Config.init engLeftData = .ok engLeftConfig ∧
    List.Pairwise (fun a b => b.failure ≤ a.failure) engLeftConfig.overrides ∧
    engLeftConfig.get_override_for_failure "/systems/eng/left/rev/deploy" = some engLeftEntry := by
  have hspo : _get_state_probability_override_entries engLeftData.state_probability_overrides =
      .ok [] := rfl
  have hentries : _get_failure_override_entries engLeftData.overrides "" = [engLeftEntry] := by
    simp [engLeftData, _get_failure_override_entries, overrideKeywords,
      OverrideNode.hasKeyword, OverrideNode.toEntry, engLeftEntry]
  have hinit : Config.init engLeftData = .ok engLeftConfig := by
    simp only [Config.init, hspo, Bind.bind, Except.bind, hentries,
      List.mergeSort_singleton, List.mergeSort_nil]
    rfl
  have hthm := override_resolution_scans_sorted_list engLeftData engLeftConfig hinit
  exact ⟨hinit, hthm.1, hthm.2.2 engLeftEntry rfl rfl⟩

/-- C3 (amended): When every eligible kind's weight is zero (so the raw
weight sum is zero), building the kind probability distribution raises no
error at all: the division by the zero sum goes through and yields a
degenerate vector (all NaN under IEEE floats, all zero in this exact
model) that is not a probability distribution. -/
theorem zero_weight_sum_yields_degenerate_distribution (cfg : Config)
    (h : cfg.kindWeights.sum = 0) :
    cfg.get_failure_state_probability_distribution = List.replicate 16 0 := by
  have hlen : cfg.kindWeights.length = 16 := by
    simp [Config.kindWeights, FailureState.triggerable_by_random_failure]
  rw [Config.get_failure_state_probability_distribution, h]
  calc cfg.kindWeights.map (· / 0) = cfg.kindWeights.map (fun _ => (0 : ℚ)) := by
        simp
  _ = List.replicate cfg.kindWeights.length 0 := List.map_const' _ _
  _ = List.replicate 16 0 := by rw [hlen]

/-- Counterexample for C3 as stated: with every one of the 16 eligible
kinds overridden to multiplier 0, `Config.init` succeeds and
`get_failure_state_probability_distribution` returns a (degenerate) vector
instead of failing with a configuration error. -/
theorem all_zero_multipliers_build_without_error :
    Config.init allZeroData = .ok cfgAllZero ∧
    cfgAllZero.kindWeights.sum = 0 ∧
    cfgAllZero.get_failure_state_probability_distribution = List.replicate 16 0 := by
  have hspo : _get_state_probability_override_entries allZeroData.state_probability_overrides =
      .ok allZeroSpoEntries := rfl
  have hentries : _get_failure_override_entries allZeroData.overrides "" = [] := by
    simp [allZeroData, _get_failure_override_entries, overrideKeywords,
      OverrideNode.hasKeyword]
  have hsorted : List.Pairwise
      (fun (a b : StateProbabilityOverrideEntry) =>
        (decide (b.state.val ≤ a.state.val)) = true) allZeroSpoEntries := by
    decide
  have hinit : Config.init allZeroData = .ok cfgAllZero := by
    simp only [Config.init, hspo, Bind.bind, Except.bind, hentries,
      List.mergeSort_nil, List.mergeSort_of_sorted hsorted]
    rfl
  have hw : cfgAllZero.kindWeights = List.replicate 16 0 := rfl
  have hwsum : cfgAllZero.kindWeights.sum = 0 := by
    rw [hw]
    simp
  refine ⟨hinit, hwsum, ?_⟩
  rw [Config.get_failure_state_probability_distribution, hwsum, hw]
  simp

/-- Witness for the amended C3: the all-zero configuration has weight sum 0
and gets the degenerate vector. -/
theorem zero_weight_sum_yields_degenerate_distribution_witness :
    cfgAllZero.kindWeights.sum = 0 ∧
    cfgAllZero.get_failure_state_probability_distribution = List.replicate 16 0 := by
  have hw : cfgAllZero.kindWeights = List.replicate 16 0 := rfl
  have hwsum : cfgAllZero.kindWeights.sum = 0 := by
    rw [hw]
    simp
  exact ⟨hwsum, zero_weight_sum_yields_degenerate_distribution cfgAllZero hwsum⟩

/-- C7 (amended): A name in `state_probability_overrides` that is not one of
the 19 fixed display names raises a `ValueError` whose message enumerates
all 19 valid names; a negative multiplier fails via the preceding `assert`,
i.e. with an `AssertionError` — a different error kind. -/
theorem state_override_error_kinds (name : String) (m : ℚ)
    (rest : List (String × ℚ)) (hname : FAILURE_STATE_DISPLAY_NAMES.lookup name = none)
    (hm : 0 ≤ m) :
    (_get_state_probability_override_entries ((name, m) :: rest) =
      .error (.valueError ("State " ++ name ++ " is not valid. Expected one of: " ++
        String.intercalate ", " (FAILURE_STATE_DISPLAY_NAMES.map Prod.fst)))) ∧
    (FAILURE_STATE_DISPLAY_NAMES.map Prod.fst).length = 19 ∧
    (∀ (name' : String) (m' : ℚ) (rest' : List (String × ℚ)), m' < 0 →
      _get_state_probability_override_entries ((name', m') :: rest') =
        .error (.assertionError ("Invalid multiplier " ++ toString m' ++
          " for override for state " ++ name'))) := by
  refine ⟨?_, rfl, ?_⟩
  · simp [_get_state_probability_override_entries, not_lt.mpr hm, hname]
  · intro name' m' rest' hm'
    simp [_get_state_probability_override_entries, hm']

/-- Counterexample for C7 as stated: the unknown-name failure and the
negative-multiplier failure are of different kinds (`ValueError` versus
`AssertionError`), not the same error kind. -/
theorem unknown_name_and_negative_multiplier_differ_in_kind :
    (_get_state_probability_override_entries [("barometric", (1 : ℚ))]).errorIsValueError
      = true ∧
    (_get_state_probability_override_entries [("ias", (-1 : ℚ))]).errorIsValueError
      = false ∧
    (_get_state_probability_override_entries [("ias", (-1 : ℚ))]).errorIsAssertionError
      = true :=
  ⟨rfl, rfl, rfl⟩

/-- Witness for the amended C7: the unknown name `barometric` yields the
`ValueError` enumerating all names; the negative multiplier for `ias`
yields the `AssertionError`. -/
theorem state_override_error_kinds_witness :
    FAILURE_STATE_DISPLAY_NAMES.lookup "barometric" = none ∧ (0 : ℚ) ≤ 1 ∧
    _get_state_probability_override_entries [("barometric", (1 : ℚ))] =
      .error (.valueError ("State " ++ "barometric" ++ " is not valid. Expected one of: " ++
        String.intercalate ", " (FAILURE_STATE_DISPLAY_NAMES.map Prod.fst))) ∧
    _get_state_probability_override_entries [("ias", (-1 : ℚ))] =
      .error (.assertionError ("Invalid multiplier " ++ toString (-1 : ℚ) ++
        " for override for state " ++ "ias")) := by
  have h1 : FAILURE_STATE_DISPLAY_NAMES.lookup "barometric" = none := rfl
  have h2 : (0 : ℚ) ≤ 1 := by norm_num
  have hthm := state_override_error_kinds "barometric" 1 [] h1 h2
  exact ⟨h1, h2, hthm.1, hthm.2.2 "ias" (-1) [] (by norm_num)⟩
